import Mathlib

/-!
Shallow embedding of the Telegram conversational agent in `src/llm_3.py`:
a single-node LangGraph workflow (`process` → END) over an `AgentState`
whose `messages` channel uses the `operator.add` (list concatenation)
reducer, checkpointed per `thread_id` by a `MemorySaver`, driven by a
Telegram transport layer (`handle_message`, `clear_command`, `main`).

The LangGraph/python-telegram-bot runtimes are external libraries; the
parts of their behaviour the program relies on (channel reducers, the
per-thread checkpoint map, the get-or-create of an unseen thread, the
persistence of the input checkpoint before the superstep runs) are
modelled here following the spec's description of those collaborators,
while every function of the repository itself is translated directly
from `src/llm_3.py`.
-/

namespace LlmAgent

/-- Role of a chat message, mirroring langchain's `SystemMessage`,
`HumanMessage` and `AIMessage` classes. -/
inductive Role where
  | system
  | user
  | assistant
  deriving DecidableEq

/-- A chat message (langchain `BaseMessage`): a role tag plus text content. -/
structure Message where
  role : Role
  content : String
  deriving DecidableEq

/-- `HumanMessage(content=s)` of `src/llm_3.py` line 191. -/
def HumanMessage (s : String) : Message := ⟨Role.user, s⟩

/-- The `AIMessage` reply object returned by `llm.invoke`. -/
def AIMessage (s : String) : Message := ⟨Role.assistant, s⟩

/-- `AgentState` (`src/llm_3.py` lines 39-42): the `messages` channel is
annotated with the `operator.add` reducer, so every update is concatenated
onto the existing sequence; `user_id` is a plain last-value channel. -/
structure AgentState where
  messages : List Message
  user_id : String

/-- The outcome of one call to the external completion capability
(`llm.invoke`): either the reply text or a raised error carrying its cause.
The program never retries; the error propagates to the Telegram handler. -/
abbrev Completion := List Message → Except String String

/-- The fixed system instruction of `process_message`
(`src/llm_3.py` lines 65-74). -/
def system_message : Message :=
  ⟨Role.system,
   "Eres un asistente virtual inteligente y amigable que responde consultas por Telegram.\n\nInstrucciones:\n- Responde de manera clara, concisa y útil\n- Usa emojis ocasionalmente para hacer la conversación más amigable\n- Si no sabes algo, admítelo honestamente\n- Puedes responder en español o inglés según el idioma del usuario\n- Mantén un tono profesional pero cercano"⟩

/-- `process_message` (`src/llm_3.py` lines 57-82): prepend the system
instruction to the state's messages to form `full_messages`, invoke the
model on that context, and return the update `{"messages": [response]}`
(the reducer appends it; the system message itself is not part of the
update). A raised completion error propagates. -/
def process_message (llm_invoke : Completion) (state : AgentState) :
    Except String (List Message) :=
  let full_messages := system_message :: state.messages
  match llm_invoke full_messages with
  | Except.ok text => Except.ok [AIMessage text]
  | Except.error e => Except.error e

/-- LangGraph's END sentinel. -/
def END : String := "__end__"

/-- `should_continue` (`src/llm_3.py` lines 85-90): always returns END.
(The compiled graph never consults it: `create_agent_graph` wires a plain
edge `process → END`.) -/
def should_continue (_state : AgentState) : String := END

/-- The graph structure assembled by `create_agent_graph`
(`src/llm_3.py` lines 96-115): named nodes, one outgoing edge per node,
and an entry point. -/
structure StateGraph where
  nodes : List (String × (AgentState → Except String (List Message)))
  edges : List (String × String)
  entry_point : String

/-- `create_agent_graph` (`src/llm_3.py` lines 96-115): one node
`"process"`, entry point `"process"`, edge `process → END`. -/
def create_agent_graph (llm_invoke : Completion) : StateGraph :=
  { nodes := [("process", process_message llm_invoke)]
    edges := [("process", END)]
    entry_point := "process" }

/-- One Pregel-style execution of the compiled graph, fuelled by
LangGraph's recursion limit: starting from `node`, run the node's function
on the current state, fold its update into the `messages` channel with the
`add` reducer, follow the single outgoing edge, and stop at END.  The
second component records the nodes actually executed, in order.  A node
failure aborts the run with the raised error. -/
def runFrom (g : StateGraph) (fuel : Nat) (node : String) (msgs : List Message)
    (uid : String) (trace : List String) :
    Except String (List Message) × List String :=
  match fuel with
  | 0 => (Except.error "recursion limit reached", trace)
  | Nat.succ fuel' =>
    if node = END then (Except.ok msgs, trace)
    else
      match g.nodes.lookup node with
      | none => (Except.error "unknown node", trace)
      | some f =>
        match f { messages := msgs, user_id := uid } with
        | Except.error e => (Except.error e, trace ++ [node])
        | Except.ok upd =>
          match g.edges.lookup node with
          | none => (Except.error "no outgoing edge", trace ++ [node])
          | some nxt => runFrom g fuel' nxt (msgs ++ upd) uid (trace ++ [node])

/-- LangGraph's default recursion limit. -/
def recursionLimit : Nat := 25

/-- `MemorySaver` (`src/llm_3.py` line 112): the in-memory checkpoint map
from `thread_id` to that thread's stored `messages` channel.  A thread that
was never stored maps to `none`. -/
structure MemorySaver where
  storage : String → Option (List Message)

/-- A fresh `MemorySaver()` holding no checkpoints. -/
def MemorySaver.empty : MemorySaver := ⟨fun _ => none⟩

/-- Store a checkpoint for one `thread_id`, leaving every other thread's
entry untouched. -/
def MemorySaver.put (m : MemorySaver) (tid : String) (msgs : List Message) :
    MemorySaver :=
  ⟨fun t => if t = tid then some msgs else m.storage t⟩

/-- Retrieving a thread's stored state: a missing id yields a freshly
created empty message sequence, never an error (the checkpointer's
get-or-create policy). -/
def loadState (m : MemorySaver) (tid : String) : List Message :=
  (m.storage tid).getD []

/-- Modelled from the spec: `agent.invoke(input_state, config)` on the
graph compiled with `checkpointer=memory` (`src/llm_3.py` lines 113, 196).
The Pregel runtime itself is LangGraph library code, not in the
repository; following spec sections 4.2-4.3 and 7: the checkpoint for
`thread_id` is loaded (get-or-create), the input is folded into the
`messages` channel by the `add` reducer and that input checkpoint is
persisted before the superstep runs, then the graph executes from its
entry point; on success the resulting state is checkpointed and returned,
and on failure the error propagates while the input checkpoint (the
appended user message, without any assistant message) remains stored. -/
def invokeAgent (llm_invoke : Completion) (m : MemorySaver) (tid : String)
    (input : List Message) (uid : String) :
    MemorySaver × Except String (List Message) :=
  let afterInput := loadState m tid ++ input
  let m1 := m.put tid afterInput
  match (runFrom (create_agent_graph llm_invoke) recursionLimit
      (create_agent_graph llm_invoke).entry_point afterInput uid []).1 with
  | Except.error e => (m1, Except.error e)
  | Except.ok final => (m1.put tid final, Except.ok final)

/-- An inbound Telegram text event: the sender's stable identity
(`update.effective_user.id`, rendered as a string) and the message text. -/
structure InboundEvent where
  senderId : String
  text : String

/-- `user_id = str(update.effective_user.id)` (`src/llm_3.py` line 176):
the thread id is derived from the sender's stable identity, not from the
message. -/
def threadIdOf (ev : InboundEvent) : String := ev.senderId

/-- `handle_message` (`src/llm_3.py` lines 171-207): derive the thread id
from the sender, wrap the inbound text as a `HumanMessage` input state,
invoke the agent with `config = {"configurable": {"thread_id": user_id}}`,
and reply with the last message's content; on any exception reply with
`"❌ Ocurrió un error: " + str(e)`.  Returns the updated checkpoint map
and the text sent back to the user. -/
def handle_message (llm_invoke : Completion) (m : MemorySaver)
    (ev : InboundEvent) : MemorySaver × String :=
  let user_id := threadIdOf ev
  let input := [HumanMessage ev.text]
  match invokeAgent llm_invoke m user_id input user_id with
  | (m', Except.ok result) =>
    (m', match result.getLast? with
         | some msg => msg.content
         | none => "")
  | (m', Except.error e) => (m', "❌ Ocurrió un error: " ++ e)

/-- The request context one turn sends to the completion capability: the
synthesized system instruction, the stored history, then the new user
message (the composition of `handle_message`'s input construction with
`process_message`'s `full_messages`). -/
def requestContext (m : MemorySaver) (tid : String) (text : String) :
    List Message :=
  system_message :: (loadState m tid ++ [HumanMessage text])

/-- A sequence of inbound text events handled in arrival order on one
thread, threading the checkpoint map through. -/
def processEvents (llm_invoke : Completion) (m : MemorySaver) (tid : String) :
    List String → MemorySaver
  | [] => m
  | t :: ts =>
    processEvents llm_invoke (handle_message llm_invoke m ⟨tid, t⟩).1 tid ts

/-- The transport-level state seen by the Telegram handlers: the agent's
checkpoint map (`MemorySaver` inside the compiled graph) and
python-telegram-bot's per-user `context.user_data` dictionaries (which
nothing in the program ever writes to). -/
structure BotContext where
  saver : MemorySaver
  user_data : String → List (String × String)

/-- The bot's state at process start: an empty `MemorySaver()` and empty
`user_data` dictionaries. -/
def botStart : BotContext :=
  { saver := MemorySaver.empty, user_data := fun _ => [] }

/-- `clear_command` (`src/llm_3.py` lines 144-148): reads
`user_id = str(update.effective_user.id)`, calls
`context.user_data.clear()` — which empties the python-telegram-bot
per-user dictionary, not the LangGraph checkpoint — and replies with the
confirmation text.  The `MemorySaver` inside the compiled graph is not
touched. -/
def clear_command (ctx : BotContext) (senderId : String) :
    BotContext × String :=
  let user_id := senderId
  ({ ctx with user_data := fun u => if u = user_id then [] else ctx.user_data u },
   "🗑️ Historial de conversación limpiado. ¡Empecemos de nuevo!")

/-- `handle_message` lifted to the transport-level state: only the
checkpoint map is read or written; `user_data` is untouched. -/
def handleMessageBot (llm_invoke : Completion) (ctx : BotContext)
    (ev : InboundEvent) : BotContext × String :=
  let r := handle_message llm_invoke ctx.saver ev
  ({ ctx with saver := r.1 }, r.2)

/-- The Telegram `Application` that `main` builds when a token is present:
the registered command/message handlers, the error handler, and whether
polling was started. -/
structure TelegramApp where
  handlers : List String
  error_handler : Bool
  polling : Bool

/-- What `main` produces: the lines printed to stdout and the application,
`none` when `main` returned before constructing it. -/
structure MainOutcome where
  printed : List String
  application : Option TelegramApp

/-- Python truthiness of `os.getenv` output: `not telegram_token` holds
when the variable is absent (`None`) or set to the empty string. -/
def pyFalsy : Option String → Bool
  | none => true
  | some s => s = ""

/-- `main` (`src/llm_3.py` lines 219-249): read `TELEGRAM_BOT_TOKEN`; if
it is falsy, print the three-line error explanation and return without
building the application; otherwise print the startup banner, build the
application, register the four handlers and the error handler, and start
polling. -/
def main (telegram_token : Option String) : MainOutcome :=
  if pyFalsy telegram_token then
    { printed :=
        ["❌ Error: TELEGRAM_BOT_TOKEN no está configurado en el archivo .env",
         "Por favor, añade tu token de Telegram al archivo .env:",
         "TELEGRAM_BOT_TOKEN=tu_token_aquí"],
      application := none }
  else
    { printed :=
        ["🚀 Iniciando bot de Telegram con LangGraph...",
         "📊 LangSmith está configurado para observabilidad",
         "🧠 Usando Gemini 2.5-flash como modelo",
         "✅ Bot iniciado. Presiona Ctrl+C para detener."],
      application := some
        { handlers := ["start", "clear", "help", "message"],
          error_handler := true,
          polling := true } }

/-- The shape the spec requires of a stored history after a run of
successful turns: one user message carrying each event's text, each
immediately followed by one assistant message, in event order — hence
exactly twice as many entries as events. -/
def turnsShape : List String → List Message → Bool
  | [], [] => true
  | t :: ts, u :: a :: rest =>
    decide (u.role = Role.user ∧ u.content = t ∧ a.role = Role.assistant)
      && turnsShape ts rest
  | _, _ => false

/-- Whether a stored history is free of system-role messages. -/
def noSystem (ms : List Message) : Bool :=
  ms.all fun msg => decide (msg.role ≠ Role.system)

/-- A completion capability that always succeeds, for concrete scenarios. -/
def demoLLM : Completion := fun _ => Except.ok "¡Hola! 😊"

/-- A completion capability that always fails with cause `"timeout"`. -/
def failingLLM_A : Completion := fun _ => Except.error "timeout"

/-- A completion capability that always fails with cause `"quota"`. -/
def failingLLM_B : Completion := fun _ => Except.error "quota"

/-! Helper lemmas characterizing one graph run and one handled turn. -/

/-- Unfolding the single-step graph run: the `process` node executes once
on `full_messages = system_message :: msgs`; on success the `add` reducer
appends exactly the one assistant reply and the edge leads to END. -/
theorem runFrom_process (c : Completion) (msgs : List Message) (uid : String) :
    runFrom (create_agent_graph c) recursionLimit "process" msgs uid [] =
      (match c (system_message :: msgs) with
       | Except.ok r => (Except.ok (msgs ++ [AIMessage r]), ["process"])
       | Except.error e => (Except.error e, ["process"])) := by
  cases h : c (system_message :: msgs) with
  | ok r =>
    simp [runFrom, recursionLimit, create_agent_graph, process_message, END,
      List.lookup, h]
  | error e =>
    simp [runFrom, recursionLimit, create_agent_graph, process_message, END,
      List.lookup, h]

/-- Reading a checkpoint just stored. -/
theorem loadState_put (m : MemorySaver) (tid t : String) (msgs : List Message) :
    loadState (m.put tid msgs) t = if t = tid then msgs else loadState m t := by
  by_cases h : t = tid <;> simp [loadState, MemorySaver.put, h]

/-- A successful turn: the thread's checkpoint gains exactly the user
message and the assistant reply (in that order), every other thread's
entry is untouched, and the reply sent back is the completion's text. -/
theorem handle_message_ok (c : Completion) (m : MemorySaver) (ev : InboundEvent)
    (r : String) (h : c (requestContext m ev.senderId ev.text) = Except.ok r) :
    (∀ t, loadState (handle_message c m ev).1 t =
      if t = ev.senderId then
        loadState m ev.senderId ++ [HumanMessage ev.text, AIMessage r]
      else loadState m t)
    ∧ (handle_message c m ev).2 = r := by
  have hrun := runFrom_process c (loadState m ev.senderId ++ [HumanMessage ev.text])
    ev.senderId
  rw [requestContext] at h
  rw [create_agent_graph] at hrun
  constructor
  · intro t
    by_cases ht : t = ev.senderId <;>
      simp [handle_message, invokeAgent, threadIdOf, create_agent_graph, hrun, h,
        loadState_put, ht]
  · simp [handle_message, invokeAgent, threadIdOf, create_agent_graph, hrun, h,
      AIMessage]

/-- A failed turn: the thread's checkpoint keeps the appended user message
but gains no assistant message, every other thread's entry is untouched,
and the reply is the error notice built from the cause. -/
theorem handle_message_error (c : Completion) (m : MemorySaver)
    (ev : InboundEvent) (e : String)
    (h : c (requestContext m ev.senderId ev.text) = Except.error e) :
    (∀ t, loadState (handle_message c m ev).1 t =
      if t = ev.senderId then loadState m ev.senderId ++ [HumanMessage ev.text]
      else loadState m t)
    ∧ (handle_message c m ev).2 = "❌ Ocurrió un error: " ++ e := by
  have hrun := runFrom_process c (loadState m ev.senderId ++ [HumanMessage ev.text])
    ev.senderId
  rw [requestContext] at h
  rw [create_agent_graph] at hrun
  constructor
  · intro t
    by_cases ht : t = ev.senderId <;>
      simp [handle_message, invokeAgent, threadIdOf, create_agent_graph, hrun, h,
        loadState_put, ht]
  · simp [handle_message, invokeAgent, threadIdOf, create_agent_graph, hrun, h,
      AIMessage]

/-- Appending one further successful turn preserves the alternating
user/assistant shape. -/
theorem turnsShape_append (ts : List String) (ms : List Message)
    (t r : String) (h : turnsShape ts ms = true) :
    turnsShape (ts ++ [t]) (ms ++ [HumanMessage t, AIMessage r]) = true := by
  induction ts generalizing ms with
  | nil =>
    cases ms with
    | nil => simp [turnsShape, HumanMessage, AIMessage]
    | cons u rest => simp [turnsShape] at h
  | cons t0 ts0 ih =>
    cases ms with
    | nil => simp [turnsShape] at h
    | cons u rest =>
      cases rest with
      | nil => simp [turnsShape] at h
      | cons a rest2 =>
        simp only [turnsShape, Bool.and_eq_true, decide_eq_true_eq] at h
        simp only [List.cons_append, turnsShape, Bool.and_eq_true,
          decide_eq_true_eq]
        exact ⟨h.1, ih rest2 h.2⟩

/-- Processing a run of all-successful events extends an alternating
history by one user/assistant pair per event, in arrival order. -/
theorem processEvents_shape (c : Completion)
    (hok : ∀ ctx, ∃ r, c ctx = Except.ok r) (tid : String)
    (texts : List String) :
    ∀ (m : MemorySaver) (done : List String),
      turnsShape done (loadState m tid) = true →
      turnsShape (done ++ texts)
        (loadState (processEvents c m tid texts) tid) = true := by
  induction texts with
  | nil =>
    intro m done h
    simpa [processEvents] using h
  | cons t ts ih =>
    intro m done h
    obtain ⟨r, hr⟩ := hok (requestContext m tid t)
    have step := (handle_message_ok c m ⟨tid, t⟩ r hr).1 tid
    simp only [if_pos rfl] at step
    have h' : turnsShape (done ++ [t])
        (loadState (handle_message c m ⟨tid, t⟩).1 tid) = true := by
      rw [step]
      exact turnsShape_append done _ t r h
    have := ih (handle_message c m ⟨tid, t⟩).1 (done ++ [t]) h'
    simpa [processEvents, List.append_assoc] using this

/-- Every step appends only user- and assistant-role messages, so a
system-free history stays system-free. -/
theorem processEvents_noSystem (c : Completion) (tid : String)
    (texts : List String) :
    ∀ m : MemorySaver, noSystem (loadState m tid) = true →
      noSystem (loadState (processEvents c m tid texts) tid) = true := by
  induction texts with
  | nil =>
    intro m h
    simpa [processEvents] using h
  | cons t ts ih =>
    intro m h
    have h' : noSystem (loadState (handle_message c m ⟨tid, t⟩).1 tid) = true := by
      cases hc : c (requestContext m tid t) with
      | ok r =>
        have step := (handle_message_ok c m ⟨tid, t⟩ r hc).1 tid
        simp only [if_pos rfl] at step
        rw [step]
        simpa [noSystem, HumanMessage, AIMessage] using h
      | error e =>
        have step := (handle_message_error c m ⟨tid, t⟩ e hc).1 tid
        simp only [if_pos rfl] at step
        rw [step]
        simpa [noSystem, HumanMessage] using h
    simpa [processEvents] using ih (handle_message c m ⟨tid, t⟩).1 h'

/-- C1: the claim fails on the code.  After one successful turn on thread
`"u1"`, invoking the clear command and then retrieving the thread's stored
conversation state yields the full two-message history, not an empty
sequence: `clear_command` empties `context.user_data`, which the
conversation state never uses, while the `MemorySaver` checkpoint the next
turn will read is left intact. -/
theorem clear_command_leaves_checkpoint :
    loadState ((clear_command
        (handleMessageBot demoLLM botStart ⟨"u1", "hola"⟩).1 "u1").1.saver) "u1"
      = [HumanMessage "hola", AIMessage "¡Hola! 😊"]
    ∧ loadState ((clear_command
        (handleMessageBot demoLLM botStart ⟨"u1", "hola"⟩).1 "u1").1.saver) "u1"
      ≠ [] := by
  constructor
  · rfl
  · decide

/-- C5 counterexample: two turns failing with different underlying causes
(`"timeout"` vs `"quota"`) produce different notice texts, so the emitted
notice is not cause-independent. -/
theorem error_notice_differs_by_cause :
    (handle_message failingLLM_A MemorySaver.empty ⟨"u1", "hola"⟩).2 ≠
      (handle_message failingLLM_B MemorySaver.empty ⟨"u1", "hola"⟩).2 := by
  decide

/-- C5 (amended): when the completion capability fails, the notice the
handler emits is the fixed prefix `"❌ Ocurrió un error: "` followed by
the text of the underlying cause — it depends on the cause rather than
being generic. -/
theorem error_notice_embeds_cause (c : Completion) (m : MemorySaver)
    (ev : InboundEvent) (e : String)
    (h : c (requestContext m ev.senderId ev.text) = Except.error e) :
    (handle_message c m ev).2 = "❌ Ocurrió un error: " ++ e :=
  (handle_message_error c m ev e h).2

/-- Witness for the amended C5 at a concrete failing turn. -/
theorem error_notice_embeds_cause_witness :
    failingLLM_A (requestContext MemorySaver.empty "u1" "hola")
      = Except.error "timeout"
    ∧ (handle_message failingLLM_A MemorySaver.empty ⟨"u1", "hola"⟩).2
      = "❌ Ocurrió un error: " ++ "timeout" :=
  ⟨rfl, error_notice_embeds_cause failingLLM_A MemorySaver.empty
    ⟨"u1", "hola"⟩ "timeout" rfl⟩

/-- C6: a processing step only appends: for every thread, the stored
message sequence before the step is a prefix of the sequence after it,
whether the completion succeeds or fails. -/
theorem steps_only_append (c : Completion) (m : MemorySaver)
    (ev : InboundEvent) (t : String) :
    ∃ rest, loadState (handle_message c m ev).1 t = loadState m t ++ rest := by
  cases hc : c (requestContext m ev.senderId ev.text) with
  | ok r =>
    have step := (handle_message_ok c m ev r hc).1 t
    by_cases ht : t = ev.senderId
    · subst ht; exact ⟨_, by simpa using step⟩
    · exact ⟨[], by simp [step, ht]⟩
  | error e =>
    have step := (handle_message_error c m ev e hc).1 t
    by_cases ht : t = ev.senderId
    · subst ht; exact ⟨_, by simpa using step⟩
    · exact ⟨[], by simp [step, ht]⟩

/-- C7: one graph execution runs the `process` node exactly once and
terminates, and when the completion succeeds it appends exactly one
assistant message to the state. -/
theorem graph_single_step (c : Completion) (msgs : List Message)
    (uid : String) :
    (runFrom (create_agent_graph c) recursionLimit
        (create_agent_graph c).entry_point msgs uid []).2 = ["process"]
    ∧ ∀ r, c (system_message :: msgs) = Except.ok r →
        (runFrom (create_agent_graph c) recursionLimit
            (create_agent_graph c).entry_point msgs uid []).1
          = Except.ok (msgs ++ [AIMessage r]) := by
  have hentry : (create_agent_graph c).entry_point = "process" := rfl
  have hrun := runFrom_process c msgs uid
  rw [hentry, hrun]
  cases hc : c (system_message :: msgs) with
  | ok r =>
    refine ⟨rfl, ?_⟩
    intro r' hr'
    injection hr' with hrr
    subst hrr
    rfl
  | error e =>
    refine ⟨rfl, ?_⟩
    intro r' hr'
    exact absurd hr' (by simp)

/-- Witness for C7 at a concrete succeeding completion. -/
theorem graph_single_step_witness :
    (runFrom (create_agent_graph demoLLM) recursionLimit
        (create_agent_graph demoLLM).entry_point [] "u1" []).2 = ["process"]
    ∧ (runFrom (create_agent_graph demoLLM) recursionLimit
        (create_agent_graph demoLLM).entry_point [] "u1" []).1
      = Except.ok ([] ++ [AIMessage "¡Hola! 😊"]) :=
  ⟨(graph_single_step demoLLM [] "u1").1,
   (graph_single_step demoLLM [] "u1").2 "¡Hola! 😊" rfl⟩

/-- C8: a thread id never seen by the checkpointer yields a freshly
created empty state rather than an error, and its first turn is processed
with a request context holding only the synthesized system instruction and
that turn's user message; on success the stored history is exactly that
user message plus the one reply. -/
theorem unseen_thread_fresh_state (c : Completion) (m : MemorySaver)
    (tid text : String) (h : m.storage tid = none) :
    loadState m tid = []
    ∧ requestContext m tid text = [system_message, HumanMessage text]
    ∧ ∀ r, c (requestContext m tid text) = Except.ok r →
        loadState (handle_message c m ⟨tid, text⟩).1 tid =
          [HumanMessage text, AIMessage r] := by
  have hload : loadState m tid = [] := by simp [loadState, h]
  refine ⟨hload, by simp [requestContext, hload], ?_⟩
  intro r hr
  have step := (handle_message_ok c m ⟨tid, text⟩ r hr).1 tid
  simpa [hload] using step

/-- Witness for C8 on the empty checkpointer. -/
theorem unseen_thread_fresh_state_witness :
    MemorySaver.empty.storage "u1" = none
    ∧ loadState MemorySaver.empty "u1" = []
    ∧ requestContext MemorySaver.empty "u1" "hola"
        = [system_message, HumanMessage "hola"]
    ∧ loadState (handle_message demoLLM MemorySaver.empty ⟨"u1", "hola"⟩).1 "u1"
        = [HumanMessage "hola", AIMessage "¡Hola! 😊"] := by
  have h := unseen_thread_fresh_state demoLLM MemorySaver.empty "u1" "hola" rfl
  exact ⟨rfl, h.1, h.2.1, h.2.2 "¡Hola! 😊" rfl⟩

/-- C9: the thread id is the sender's stable identity, and a turn on one
thread leaves every other thread's stored state unchanged. -/
theorem turn_isolated_to_own_thread (c : Completion) (m : MemorySaver)
    (ev : InboundEvent) (t : String) (h : t ≠ threadIdOf ev) :
    loadState (handle_message c m ev).1 t = loadState m t
    ∧ threadIdOf ev = ev.senderId := by
  rw [threadIdOf] at h
  refine ⟨?_, rfl⟩
  cases hc : c (requestContext m ev.senderId ev.text) with
  | ok r =>
    have step := (handle_message_ok c m ev r hc).1 t
    simpa [h] using step
  | error e =>
    have step := (handle_message_error c m ev e hc).1 t
    simpa [h] using step

/-- Witness for C9: a turn by sender `"u1"` leaves thread `"u2"` alone. -/
theorem turn_isolated_to_own_thread_witness :
    "u2" ≠ threadIdOf ⟨"u1", "hola"⟩
    ∧ loadState (handle_message demoLLM MemorySaver.empty ⟨"u1", "hola"⟩).1 "u2"
        = loadState MemorySaver.empty "u2" :=
  ⟨by decide,
   (turn_isolated_to_own_thread demoLLM MemorySaver.empty ⟨"u1", "hola"⟩ "u2"
     (by decide)).1⟩

/-- C2: after any number of inbound text events on one thread, all with a
succeeding completion, the thread's stored history holds exactly one user
message (carrying the event's text) followed by one assistant message per
event, in arrival order — two entries per event, alternating. -/
theorem turns_alternate_user_assistant (c : Completion)
    (hok : ∀ ctx, ∃ r, c ctx = Except.ok r) (tid : String)
    (texts : List String) :
    turnsShape texts
      (loadState (processEvents c MemorySaver.empty tid texts) tid) = true := by
  have h0 : turnsShape [] (loadState MemorySaver.empty tid) = true := by
    simp [turnsShape, loadState, MemorySaver.empty]
  simpa using processEvents_shape c hok tid texts MemorySaver.empty [] h0

/-- Witness for C2: two events on thread `"u1"` with an always-succeeding
completion leave a four-message alternating history. -/
theorem turns_alternate_user_assistant_witness :
    (∀ ctx, ∃ r, demoLLM ctx = Except.ok r)
    ∧ turnsShape ["hola", "adiós"]
        (loadState (processEvents demoLLM MemorySaver.empty "u1"
          ["hola", "adiós"]) "u1") = true :=
  ⟨fun _ => ⟨"¡Hola! 😊", rfl⟩,
   turns_alternate_user_assistant demoLLM (fun _ => ⟨"¡Hola! 😊", rfl⟩)
     "u1" ["hola", "adiós"]⟩

/-- C3: when the completion fails on a turn, the thread's stored history
afterwards is the prior history plus that turn's user message — no
assistant message for the turn — and the request context of any later turn
on the thread still contains the failed turn's user message. -/
theorem failed_turn_keeps_user_message (c : Completion) (m : MemorySaver)
    (tid tk e : String)
    (h : c (requestContext m tid tk) = Except.error e) :
    loadState (handle_message c m ⟨tid, tk⟩).1 tid
      = loadState m tid ++ [HumanMessage tk]
    ∧ ∀ tnext, HumanMessage tk ∈
        requestContext (handle_message c m ⟨tid, tk⟩).1 tid tnext := by
  have step := (handle_message_error c m ⟨tid, tk⟩ e h).1 tid
  simp only [if_pos rfl] at step
  refine ⟨step, ?_⟩
  intro tnext
  simp [requestContext, step]

/-- Witness for C3: a failing completion on thread `"u1"` leaves exactly
the user message stored, and the next turn's context still contains it. -/
theorem failed_turn_keeps_user_message_witness :
    failingLLM_A (requestContext MemorySaver.empty "u1" "hola")
      = Except.error "timeout"
    ∧ loadState (handle_message failingLLM_A MemorySaver.empty
        ⟨"u1", "hola"⟩).1 "u1"
      = loadState MemorySaver.empty "u1" ++ [HumanMessage "hola"]
    ∧ HumanMessage "hola" ∈
        requestContext (handle_message failingLLM_A MemorySaver.empty
          ⟨"u1", "hola"⟩).1 "u1" "sigues ahí" := by
  have h := failed_turn_keeps_user_message failingLLM_A MemorySaver.empty
    "u1" "hola" "timeout" rfl
  exact ⟨rfl, h.1, h.2 "sigues ahí"⟩

/-- C4: the fixed system instruction is prepended to the current messages
only inside the processing step to form the request context (the update it
returns holds just the assistant reply), and the stored history of a
thread never contains a system-role message however many turns have run,
succeeding or failing. -/
theorem system_instruction_not_persisted (c : Completion) (tid : String)
    (texts : List String) :
    (∀ st : AgentState, process_message c st =
        match c (system_message :: st.messages) with
        | Except.ok text => Except.ok [AIMessage text]
        | Except.error e => Except.error e)
    ∧ noSystem
        (loadState (processEvents c MemorySaver.empty tid texts) tid) = true := by
  refine ⟨fun st => rfl, ?_⟩
  have h0 : noSystem (loadState MemorySaver.empty tid) = true := by
    simp [noSystem, loadState, MemorySaver.empty]
  exact processEvents_noSystem c tid texts MemorySaver.empty h0

/-- C10: with `TELEGRAM_BOT_TOKEN` absent, `main` prints the three-line
error explanation and returns without constructing the application — so no
handler is registered and no polling begins. -/
theorem missing_token_aborts_startup :
    (main none).application = none
    ∧ (main none).printed =
        ["❌ Error: TELEGRAM_BOT_TOKEN no está configurado en el archivo .env",
         "Por favor, añade tu token de Telegram al archivo .env:",
         "TELEGRAM_BOT_TOKEN=tu_token_aquí"] :=
  ⟨rfl, rfl⟩

end LlmAgent
